import Mathlib

/-!
Verification development for the AI-Interview-Analyzer repository
(`src/app.py`).  The Python helpers `generate_feedback`,
`analyze_sentiment` and `analyze_emotion_from_image`, together with the
deployment-gate check at module top level, are shallowly embedded as
total Lean functions.  External capabilities (the HTTP transport, the
TextBlob sentiment engine, the OpenCV image decoder and the DeepFace
emotion model) are parameters of the embedded functions; the Python
values that flow through the code (parsed JSON, exceptions, Streamlit
error banners) are modelled by explicit inductive types.
-/

/-- Model of a parsed JSON value, as produced by `response.json()` in
`src/app.py`.  Numbers are modelled as rationals (the only numbers the
code itself writes are the integer 800 and the decimal 0.7). -/
inductive JValue where
  | null : JValue
  | bool (b : Bool) : JValue
  | num (q : ℚ) : JValue
  | str (s : String) : JValue
  | arr (elems : List JValue) : JValue
  | obj (fields : List (String × JValue)) : JValue

/-- Python exceptions that the subscript / attribute operations used in
lines 93-96 of `src/app.py` can raise.  All of them are subclasses of
`Exception`, so all are caught by the final handler at line 108. -/
inductive PyExn where
  | keyError (k : String) : PyExn
  | typeError (m : String) : PyExn
  | attributeError (m : String) : PyExn
  | indexError (m : String) : PyExn
deriving DecidableEq

/-- Rendering of a caught exception into the text interpolated by the
f-strings of the `except` handlers. -/
def pyExnText : PyExn → String
  | .keyError k => "KeyError: \x27" ++ k ++ "\x27"
  | .typeError m => "TypeError: " ++ m
  | .attributeError m => "AttributeError: " ++ m
  | .indexError m => "IndexError: " ++ m

/-- Python truthiness of a parsed JSON value: `None`, `False`, `0`, the
empty string, the empty list and the empty dict are falsy, everything
else is truthy. -/
def truthy : JValue → Bool
  | .null => false
  | .bool b => b
  | .num q => q != 0
  | .str s => s != ""
  | .arr elems => !elems.isEmpty
  | .obj fields => !fields.isEmpty

/-- Lookup of a key in a parsed JSON object (Python dict), first match. -/
def jLookup (fields : List (String × JValue)) (k : String) : Option JValue :=
  (fields.find? (fun p => p.1 == k)).map (fun p => p.2)

/-- Embedding of the Python method call `v.get(k)`: on a dict it returns
the stored value or `None`; every other value has no `get` attribute and
raises `AttributeError`. -/
def pyGetMethod (v : JValue) (k : String) : Except PyExn JValue :=
  match v with
  | .obj fields => .ok ((jLookup fields k).getD .null)
  | _ => .error (.attributeError ("object has no attribute \x27get\x27 (key " ++ k ++ ")"))

/-- Embedding of the Python subscript `v[k]` with a string key: on a dict
it returns the stored value or raises `KeyError`; lists and strings
require integer indices (`TypeError`); other values are not
subscriptable (`TypeError`). -/
def pySubscrKey (v : JValue) (k : String) : Except PyExn JValue :=
  match v with
  | .obj fields =>
    match jLookup fields k with
    | some w => .ok w
    | none => .error (.keyError k)
  | .arr _ => .error (.typeError "list indices must be integers or slices, not str")
  | .str _ => .error (.typeError "string indices must be integers")
  | _ => .error (.typeError "object is not subscriptable")

/-- Embedding of the Python subscript `v[0]`: first element of a list,
first character of a string (as a one-character string), `KeyError` on a
dict whose keys are strings, `IndexError` on an empty sequence,
`TypeError` otherwise. -/
def pySubscrZero (v : JValue) : Except PyExn JValue :=
  match v with
  | .arr (x :: _) => .ok x
  | .arr [] => .error (.indexError "list index out of range")
  | .str s =>
    match s.data with
    | c :: _ => .ok (.str (String.mk [c]))
    | [] => .error (.indexError "string index out of range")
  | .obj _ => .error (.keyError "0")
  | _ => .error (.typeError "object is not subscriptable")

/-- Embedding of the Python call `len(v)`: length of a string, list or
dict; `TypeError` on values without a length. -/
def pyLen (v : JValue) : Except PyExn Nat :=
  match v with
  | .str s => .ok s.length
  | .arr elems => .ok elems.length
  | .obj fields => .ok fields.length
  | _ => .error (.typeError "object has no len()")

mutual

/-- Python `repr` of a parsed JSON value, as interpolated by the
response-structure error banner at line 99 of `src/app.py` (string
escaping inside reprs and float formatting are not reproduced beyond a
plain rendering). -/
def pyRepr : JValue → String
  | .null => "None"
  | .bool true => "True"
  | .bool false => "False"
  | .num q => toString q
  | .str s => "\x27" ++ s ++ "\x27"
  | .arr elems => "[" ++ pyReprList elems ++ "]"
  | .obj fields => "\x7b" ++ pyReprFields fields ++ "\x7d"

/-- Comma-separated reprs of the elements of a Python list. -/
def pyReprList : List JValue → String
  | [] => ""
  | [x] => pyRepr x
  | x :: xs => pyRepr x ++ ", " ++ pyReprList xs

/-- Comma-separated reprs of the key/value pairs of a Python dict. -/
def pyReprFields : List (String × JValue) → String
  | [] => ""
  | [(k, v)] => "\x27" ++ k ++ "\x27: " ++ pyRepr v
  | (k, v) :: xs => "\x27" ++ k ++ "\x27: " ++ pyRepr v ++ ", " ++ pyReprFields xs

end

/-- Characters stripped by Python `str.strip()` (the ASCII whitespace
characters; the code never feeds non-ASCII whitespace). -/
def pyIsSpace (c : Char) : Bool :=
  c == ' ' || c == '\t' || c == '\n' || c == '\x0b' || c == '\x0c' || c == '\r'

/-- Embedding of Python `str.strip()`: remove leading and trailing
whitespace. -/
def pyStrip (s : String) : String :=
  String.mk (((s.data.dropWhile pyIsSpace).reverse.dropWhile pyIsSpace).reverse)

/-- Literal text of the prompt f-string (lines 53-70 of `src/app.py`)
before the first `category` interpolation. -/
def promptA : String :=
  "\n    You are an AI Interview Coach. Your goal is to provide constructive and detailed feedback\n    on interview answers. The user has provided an answer for a question in the \x27"

/-- Literal text of the prompt f-string between the first `category`
interpolation and the second one, carrying the seven numbered evaluation
dimensions. -/
def promptB : String :=
  "\x27 category.\n\n    Please analyze the following aspects of the answer:\n    1.  **Content and Relevance:** Is the answer directly addressing the question? Is it comprehensive?\n    2.  **Structure and Clarity:** Is the answer well-organized, logical, and easy to understand?\n    3.  **Conciseness:** Is the answer to the point without unnecessary jargon or rambling?\n    4.  **Impact and Examples:** Does the answer provide specific examples or demonstrate impact where appropriate (e.g., STAR method for behavioral questions)?\n    5.  **Strengths:** What did the user do well?\n    6.  **Areas for Improvement:** What could the user improve? Be specific and actionable.\n    7.  **Overall Score/Rating:** Provide a simple rating (e.g., 1-5, or Poor, Fair, Good, Excellent).\n\n    Interview Category: "

/-- Literal text of the prompt f-string between the second `category`
interpolation and the `answer` interpolation. -/
def promptC : String :=
  "\n    User\x27s Answer: \""

/-- Literal text of the prompt f-string after the `answer`
interpolation. -/
def promptD : String :=
  "\"\n\n    Please provide your feedback in a clear, markdown-formatted response.\n    "

/-- The Prompt Builder (lines 53-70 of `src/app.py`): the f-string
interpolating `category` twice and `answer` once into the fixed
instruction text. -/
def buildPrompt (category answer : String) : String :=
  promptA ++ category ++ promptB ++ category ++ promptC ++ answer ++ promptD

/-- The JSON request body built at lines 74-83 of `src/app.py`: one
user turn holding the prompt, plus the fixed generation configuration
(`maxOutputTokens` 800, `temperature` 0.7).  The endpoint URL and the
API key travel outside this body and are not part of the document. -/
def requestPayload (category answer : String) : JValue :=
  .obj
    [("contents",
      .arr [.obj [("role", .str "user"),
                  ("parts", .arr [.obj [("text", .str (buildPrompt category answer))]])]]),
     ("generationConfig",
      .obj [("maxOutputTokens", .num 800), ("temperature", .num (7 / 10))])]

/-- Outcome of the single `requests.post` exchange, as seen by the code
inside the `try` block: the call (or `raise_for_status`) raises a
`requests.exceptions.RequestException`, `response.json()` raises a
`json.JSONDecodeError`, or a parsed JSON body is obtained. -/
inductive NetBehavior where
  | raiseRequest (m : String) : NetBehavior
  | raiseJson (m : String) : NetBehavior
  | ok (body : JValue) : NetBehavior

/-- Embedding of lines 93-96 of `src/app.py`: the short-circuit chain of
truthiness checks over the parsed body, followed by the extraction of
`result["candidates"][0]["content"]["parts"][0]["text"]`.  Returns
`some text` when the guard holds and the extraction succeeds, `none`
when the guard evaluates to false (the `else` branch at line 98), and a
raised exception when any of the Python operations involved raises. -/
def tryParse (result : JValue) : Except PyExn (Option JValue) := do
  let g1 ← pyGetMethod result "candidates"
  if truthy g1 then
    let cands ← pySubscrKey result "candidates"
    let n ← pyLen cands
    if n > 0 then
      let c0 ← pySubscrZero cands
      let g2 ← pyGetMethod c0 "content"
      if truthy g2 then
        let content ← pySubscrKey c0 "content"
        let g3 ← pyGetMethod content "parts"
        if truthy g3 then
          let parts ← pySubscrKey content "parts"
          let m ← pyLen parts
          if m > 0 then
            let p0 ← pySubscrZero parts
            let t ← pySubscrKey p0 "text"
            pure (some t)
          else pure none
        else pure none
      else pure none
    else pure none
  else pure none

/-- Observable outcome of one call to `generate_feedback`: the returned
value (`ret`), the `st.error` banners emitted (`errors`), and the JSON
body of the network request if one was attempted (`sent`, `none` when
no network call was made). -/
structure GFResult where
  ret : JValue
  errors : List String
  sent : Option JValue

/-- Shallow embedding of `generate_feedback` (lines 45-110 of
`src/app.py`).  The transport and the remote service are abstracted
into the `net` parameter; the three `except` clauses (for
`RequestException`, `JSONDecodeError` and `Exception`) are the three
non-success branches.  Every Python exception arising inside the `try`
block is a `PyExn` and is caught by the final `except Exception`
handler. -/
def generate_feedback (category answer : String) (net : NetBehavior) : GFResult :=
  if pyStrip answer = "" then
    { ret := .str "Please provide an answer to receive feedback.",
      errors := [], sent := none }
  else
    match net with
    | .raiseRequest m =>
      { ret := .str "An error occurred while connecting to Gemini API. Please check your network or API key.",
        errors := ["Gemini API Request Error: " ++ m],
        sent := some (requestPayload category answer) }
    | .raiseJson m =>
      { ret := .str "An error occurred while processing Gemini feedback. Please try again.",
        errors := ["Failed to decode JSON response from Gemini API: " ++ m],
        sent := some (requestPayload category answer) }
    | .ok body =>
      match tryParse body with
      | .ok (some t) =>
        { ret := t, errors := [], sent := some (requestPayload category answer) }
      | .ok none =>
        { ret := .str "An error occurred while parsing Gemini feedback. Please try again.",
          errors := ["Gemini API response structure unexpected: " ++ pyRepr body],
          sent := some (requestPayload category answer) }
      | .error e =>
        { ret := .str "An unexpected error occurred. Please try again.",
          errors := ["An unexpected error occurred: " ++ pyExnText e],
          sent := some (requestPayload category answer) }

/-- The five entries of the category selector (line 176 of
`src/app.py`), the fixed closed set of categories. -/
def categories : List String :=
  ["HR (Human Resources)", "Technical (Software Engineering)",
   "Behavioral (STAR Method)", "Product Management", "Data Science"]

/-- Embedding of Python `str.upper()` on a single character (ASCII
range, which covers every value the gate compares). -/
def pyUpperChar (c : Char) : Char :=
  if 'a' ≤ c ∧ c ≤ 'z' then Char.ofNat (c.toNat - 32) else c

/-- Embedding of Python `str.upper()`. -/
def pyUpper (s : String) : String :=
  String.mk (s.data.map pyUpperChar)

/-- Line 17 of `src/app.py`:
`os.getenv("AI_INTERVIEW_COACH_AUTHORIZED_DEPLOYMENT", "FALSE").upper()`.
The environment variable is modelled as an `Option String` (`none` when
absent). -/
def AUTHORIZED_DEPLOYMENT_FLAG (env : Option String) : String :=
  pyUpper (env.getD "FALSE")

/-- The deployment gate (lines 19-30 of `src/app.py`): the application
proceeds past the warning screen exactly when the computed flag equals
`"TRUE"`; otherwise `st.error` is shown and `st.stop()` halts. -/
def gateAdmits (env : Option String) : Bool :=
  AUTHORIZED_DEPLOYMENT_FLAG env == "TRUE"

/-- The two scalar sentiment metrics returned by `analyze_sentiment`. -/
structure SentimentResult where
  polarity : ℚ
  subjectivity : ℚ
deriving DecidableEq

/-- Shallow embedding of `analyze_sentiment` (lines 112-124 of
`src/app.py`).  The TextBlob sentiment capability is the
`blobSentiment` parameter returning (polarity, subjectivity); the code
returns the zero default for input that strips to empty, and the
capability's two outputs unchanged otherwise. -/
def analyze_sentiment (blobSentiment : String → ℚ × ℚ) (text : String) : SentimentResult :=
  if pyStrip text = "" then
    { polarity := 0, subjectivity := 0 }
  else
    { polarity := (blobSentiment text).1, subjectivity := (blobSentiment text).2 }

/-- One entry of the list returned by `DeepFace.analyze`: the dominant
emotion label and the label-to-confidence mapping. -/
structure Demography where
  dominant_emotion : String
  emotion : List (String × ℚ)

/-- Outcome of the `DeepFace.analyze` call on a decoded image: either a
raised exception (caught by the `except Exception` handler at line 158)
or a list of analyzed face regions. -/
inductive DFOutcome where
  | raise (m : String) : DFOutcome
  | ok (ds : List Demography) : DFOutcome

/-- Second component of the pair returned by
`analyze_emotion_from_image`: either the emotion-score mapping (success)
or a diagnostic message string. -/
inductive EmoSecond where
  | scores (m : List (String × ℚ)) : EmoSecond
  | msg (s : String) : EmoSecond
deriving DecidableEq

/-- Observable outcome of one call to `analyze_emotion_from_image`: the
returned pair, the number of calls to the image decoder and to the
DeepFace capability, and the `st.error` banners emitted. -/
structure EmoRun where
  result : Option String × EmoSecond
  decodeCalls : Nat
  analyzeCalls : Nat
  errors : List String

/-- Shallow embedding of `analyze_emotion_from_image` (lines 126-160 of
`src/app.py`).  `np.frombuffer` is the identity on the byte list;
`cv2.imdecode` is the `imdecode` parameter (returning `none` when
decoding fails, as the OpenCV call returns `None`); `DeepFace.analyze`
is the `dfAnalyze` parameter.  Any exception from the capability is
caught by the surrounding `except Exception` handler. -/
def analyze_emotion_from_image {Image : Type} (imdecode : List Nat → Option Image)
    (dfAnalyze : Image → DFOutcome) (image_bytes : Option (List Nat)) : EmoRun :=
  match image_bytes with
  | none =>
    { result := (none, .msg "No image provided."),
      decodeCalls := 0, analyzeCalls := 0, errors := [] }
  | some bytes =>
    match imdecode bytes with
    | none =>
      { result := (none, .msg "Could not decode image. Please try another picture."),
        decodeCalls := 1, analyzeCalls := 0, errors := [] }
    | some img =>
      match dfAnalyze img with
      | .raise m =>
        { result := (none, .msg ("An error occurred during emotion analysis: " ++ m)),
          decodeCalls := 1, analyzeCalls := 1,
          errors := ["Error analyzing image for emotions: " ++ m] }
      | .ok [] =>
        { result := (none, .msg "No face detected in the image."),
          decodeCalls := 1, analyzeCalls := 1, errors := [] }
      | .ok (d :: _) =>
        { result := (some d.dominant_emotion, .scores d.emotion),
          decodeCalls := 1, analyzeCalls := 1, errors := [] }

/-- Predicate written from the words of claim C2: the parsed response
lacks the expected nested candidate text because `candidates`,
`content` or `parts` is missing or empty along the chain
`candidates[0].content.parts[0]`.  A response that is not a JSON
object lacks the `candidates` field; a candidate that is not an object
lacks `content`; and so on. -/
def lacksCandidateText (v : JValue) : Bool :=
  match v with
  | .obj fields =>
    match jLookup fields "candidates" with
    | some (.arr (c :: _)) =>
      match c with
      | .obj cfields =>
        match jLookup cfields "content" with
        | some (.obj kfields) =>
          match jLookup kfields "parts" with
          | some (.arr (_ :: _)) => false
          | _ => true
        | _ => true
      | _ => true
    | _ => true
  | _ => true

/-- One string occurs verbatim inside another: the container's
character list splits around the pattern's character list. -/
def ContainsSubstr (s t : String) : Prop :=
  ∃ u v : List Char, s.data = u ++ t.data ++ v

/-- Boolean check that the first list is a leading segment of the
second. -/
def isPre : List Char → List Char → Bool
  | [], _ => true
  | _ :: _, [] => false
  | a :: tl, b :: s => a == b && isPre tl s

/-- Boolean substring search: does the pattern occur at some position of
the text? -/
def subsearch (t : List Char) : List Char → Bool
  | [] => t.isEmpty
  | s@(_ :: rest) => isPre t s || subsearch t rest

/-- Boolean form of `ContainsSubstr`, evaluable on literals. -/
def strContains (s t : String) : Bool :=
  subsearch t.data s.data

/-- A string every character of which is Python whitespace strips to the
empty string. -/
theorem pyStrip_of_all_space {s : String} (h : s.data.all pyIsSpace = true) :
    pyStrip s = "" := by
  have h1 : s.data.dropWhile pyIsSpace = [] :=
    List.dropWhile_eq_nil_iff.mpr (fun x hx => (List.all_eq_true.mp h) x hx)
  unfold pyStrip
  rw [h1]
  rfl

/-- A successful leading-segment check yields a tail completing the
list. -/
theorem isPre_exists {t s : List Char} (h : isPre t s = true) : ∃ v, s = t ++ v := by
  induction t generalizing s with
  | nil => exact ⟨s, rfl⟩
  | cons a tl ih =>
    cases s with
    | nil => simp [isPre] at h
    | cons b s =>
      simp only [isPre, Bool.and_eq_true, beq_iff_eq] at h
      obtain ⟨hab, hts⟩ := h
      obtain ⟨v, hv⟩ := ih hts
      exact ⟨v, by simp [hab, hv]⟩

/-- A successful substring search yields a splitting of the text around
the pattern. -/
theorem subsearch_exists {t s : List Char} (h : subsearch t s = true) :
    ∃ u v, s = u ++ t ++ v := by
  induction s with
  | nil =>
    simp only [subsearch, List.isEmpty_iff] at h
    exact ⟨[], [], by simp [h]⟩
  | cons b s ih =>
    simp only [subsearch, Bool.or_eq_true] at h
    cases h with
    | inl h1 =>
      obtain ⟨v, hv⟩ := isPre_exists h1
      exact ⟨[], v, by simp [hv]⟩
    | inr h2 =>
      obtain ⟨u, v, huv⟩ := ih h2
      exact ⟨b :: u, v, by simp [huv]⟩

/-- Soundness of the boolean substring search. -/
theorem strContains_sound {s t : String} (h : strContains s t = true) :
    ContainsSubstr s t :=
  subsearch_exists h

/-- Every string occurs inside itself. -/
theorem containsSubstr_refl (s : String) : ContainsSubstr s s :=
  ⟨[], [], by simp⟩

/-- Occurrence is preserved by appending on the right. -/
theorem containsSubstr_appendR {s t : String} (r : String) (h : ContainsSubstr s t) :
    ContainsSubstr (s ++ r) t := by
  obtain ⟨u, v, huv⟩ := h
  exact ⟨u, v ++ r.data, by simp [String.data_append, huv]⟩

/-- Occurrence is preserved by appending on the left. -/
theorem containsSubstr_appendL {s t : String} (l : String) (h : ContainsSubstr s t) :
    ContainsSubstr (l ++ s) t := by
  obtain ⟨u, v, huv⟩ := h
  exact ⟨l.data ++ u, v, by simp [String.data_append, huv]⟩

/-- C1: for every answer that is blank or consists only of whitespace,
and every category and network behavior, `generate_feedback` returns
the fixed validation message asking the user to provide an answer, emits
no error banner, and performs no network call (`sent = none`). -/
theorem claim_C1_blank_rejects_without_network (category answer : String)
    (net : NetBehavior) (h : answer.data.all pyIsSpace = true) :
    generate_feedback category answer net =
      { ret := .str "Please provide an answer to receive feedback.",
        errors := [], sent := none } := by
  unfold generate_feedback
  rw [pyStrip_of_all_space h]
  simp

/-- Witness for C1 at the three-space answer. -/
theorem claim_C1_witness :
    "   ".data.all pyIsSpace = true ∧
    generate_feedback "Data Science" "   " (NetBehavior.ok JValue.null) =
      { ret := .str "Please provide an answer to receive feedback.",
        errors := [], sent := none } :=
  ⟨by decide, claim_C1_blank_rejects_without_network _ _ _ (by decide)⟩

/-- C3: for every transport-level failure of the single network call
(a `requests.exceptions.RequestException`, which covers both connection
errors and the non-2xx statuses surfaced by `raise_for_status`),
`generate_feedback` on a non-blank answer returns the fixed
network-error message, emits the request-error banner, and raises no
exception past its boundary (the embedding is a total function whose
`RequestException` handler produces exactly this outcome). -/
theorem claim_C3_network_failure (category answer m : String)
    (h : pyStrip answer ≠ "") :
    generate_feedback category answer (NetBehavior.raiseRequest m) =
      { ret := .str "An error occurred while connecting to Gemini API. Please check your network or API key.",
        errors := ["Gemini API Request Error: " ++ m],
        sent := some (requestPayload category answer) } := by
  unfold generate_feedback
  simp [h]

/-- Witness for C3 at a concrete answer and failure detail. -/
theorem claim_C3_witness :
    pyStrip "hi" ≠ "" ∧
    generate_feedback "Data Science" "hi" (NetBehavior.raiseRequest "boom") =
      { ret := .str "An error occurred while connecting to Gemini API. Please check your network or API key.",
        errors := ["Gemini API Request Error: " ++ "boom"],
        sent := some (requestPayload "Data Science" "hi") } :=
  ⟨by decide, claim_C3_network_failure _ _ _ (by decide)⟩

/-- C2 (amended): for every parsed response on which the guarded
existence checks of lines 93-95 evaluate, without raising, to "missing"
(`tryParse` returns `Except.ok none`: the response is a JSON object
whose `candidates`, first candidate's `content`, or `content`'s `parts`
is missing, `None`, or an empty collection), `generate_feedback` on a
non-blank answer returns the fixed schema-error message and emits the
structure-unexpected banner carrying the raw payload — the
`Failure(SchemaError, raw payload)` outcome — rather than raising or
returning success. -/
theorem claim_C2_schema_missing_field (category answer : String) (body : JValue)
    (ha : pyStrip answer ≠ "") (hb : tryParse body = .ok none) :
    generate_feedback category answer (NetBehavior.ok body) =
      { ret := .str "An error occurred while parsing Gemini feedback. Please try again.",
        errors := ["Gemini API response structure unexpected: " ++ pyRepr body],
        sent := some (requestPayload category answer) } := by
  unfold generate_feedback
  simp [ha, hb]

/-- Witness for C2 at the empty-object response. -/
theorem claim_C2_witness :
    pyStrip "hello" ≠ "" ∧
    tryParse (JValue.obj []) = .ok none ∧
    generate_feedback "HR (Human Resources)" "hello" (NetBehavior.ok (JValue.obj [])) =
      { ret := .str "An error occurred while parsing Gemini feedback. Please try again.",
        errors := ["Gemini API response structure unexpected: " ++ pyRepr (JValue.obj [])],
        sent := some (requestPayload "HR (Human Resources)" "hello") } :=
  ⟨by decide, rfl, claim_C2_schema_missing_field _ _ _ (by decide) rfl⟩

/-- Counterexample to C2 as stated: the response `[]` parses as JSON and
lacks the expected nested candidate text (its `candidates` field is
missing), yet `generate_feedback` returns the generic unexpected-error
message produced by the final `except Exception` handler (the attribute
access `result.get` raises on a list), not the schema-error failure, and
its banner does not carry the raw payload. -/
theorem claim_C2_counterexample :
    lacksCandidateText (JValue.arr []) = true ∧
    (generate_feedback "HR (Human Resources)" "hello" (NetBehavior.ok (JValue.arr []))).ret =
      JValue.str "An unexpected error occurred. Please try again." ∧
    JValue.str "An unexpected error occurred. Please try again." ≠
      JValue.str "An error occurred while parsing Gemini feedback. Please try again." := by
  refine ⟨rfl, rfl, ?_⟩
  intro h
  injection h with h2
  exact absurd h2 (by decide)

/-- C5: the instruction document shipped in the request body is a
function of the category and the answer alone: two invocations of
`generate_feedback` with the same category and answer, whatever the
surrounding network behavior of each, construct byte-identical request
documents (and hence byte-identical prompts, which the request body
embeds).  The prompt construction reads no ambient state and uses no
randomness. -/
theorem claim_C5_prompt_deterministic (category answer : String)
    (net1 net2 : NetBehavior) :
    (generate_feedback category answer net1).sent =
      (generate_feedback category answer net2).sent := by
  have hs : ∀ net, (generate_feedback category answer net).sent =
      if pyStrip answer = "" then none else some (requestPayload category answer) := by
    intro net
    unfold generate_feedback
    by_cases hb : pyStrip answer = ""
    · simp [hb]
    · cases net with
      | raiseRequest m => simp [hb]
      | raiseJson m => simp [hb]
      | ok body =>
        simp only [hb, if_false]
        cases htp : tryParse body with
        | error e => simp
        | ok o => cases o <;> simp
  rw [hs net1, hs net2]

/-- C10: `generate_feedback` is total at its boundary.  Every exception
arising inside the networked section — the transport exception, the
JSON-decoding exception, and every Python exception raised by the
response-shape checks and extraction — is caught by one of the three
`except` clauses, and the function always returns one of its five fixed
message strings or the extracted candidate text; no exception of any
kind propagates to the caller. -/
theorem claim_C10_total_boundary (category answer : String) (net : NetBehavior) :
    (generate_feedback category answer net).ret =
        .str "Please provide an answer to receive feedback." ∨
    (generate_feedback category answer net).ret =
        .str "An error occurred while connecting to Gemini API. Please check your network or API key." ∨
    (generate_feedback category answer net).ret =
        .str "An error occurred while processing Gemini feedback. Please try again." ∨
    (generate_feedback category answer net).ret =
        .str "An error occurred while parsing Gemini feedback. Please try again." ∨
    (generate_feedback category answer net).ret =
        .str "An unexpected error occurred. Please try again." ∨
    (∃ body t, net = NetBehavior.ok body ∧ tryParse body = .ok (some t) ∧
      (generate_feedback category answer net).ret = t) := by
  unfold generate_feedback
  by_cases hb : pyStrip answer = ""
  · simp [hb]
  · cases net with
    | raiseRequest m => simp [hb]
    | raiseJson m => simp [hb]
    | ok body =>
      cases htp : tryParse body with
      | error e => simp [hb, htp]
      | ok o =>
        cases o with
        | none => simp [hb, htp]
        | some t =>
          simp only [hb, if_false, htp]
          exact Or.inr (Or.inr (Or.inr (Or.inr (Or.inr ⟨body, t, rfl, htp, rfl⟩))))

/-- C4 (amended): for every byte buffer that the image codec fails to
decode (`cv2.imdecode` returns `None`), `analyze_emotion_from_image`
returns not-detected with exactly the reason "Could not decode image.
Please try another picture." — a message beginning, up to
capitalization, with the words "could not decode image" — without
invoking the emotion capability, emitting no error banner, and raising
no exception (the embedding is total and this branch precedes the code
that can catch exceptions). -/
theorem claim_C4_undecodable_buffer {Image : Type}
    (imdecode : List Nat → Option Image) (dfAnalyze : Image → DFOutcome)
    (bytes : List Nat) (h : imdecode bytes = none) :
    analyze_emotion_from_image imdecode dfAnalyze (some bytes) =
      { result := (none, .msg "Could not decode image. Please try another picture."),
        decodeCalls := 1, analyzeCalls := 0, errors := [] } := by
  simp [analyze_emotion_from_image, h]

/-- Witness for C4 at a concrete always-failing decoder. -/
theorem claim_C4_witness :
    (fun _ : List Nat => (none : Option Unit)) [0, 1] = none ∧
    analyze_emotion_from_image (fun _ : List Nat => (none : Option Unit))
        (fun _ => DFOutcome.ok []) (some [0, 1]) =
      { result := (none, .msg "Could not decode image. Please try another picture."),
        decodeCalls := 1, analyzeCalls := 0, errors := [] } :=
  ⟨rfl, claim_C4_undecodable_buffer _ _ _ rfl⟩

/-- Counterexample to C4 as stated: on an undecodable buffer the reason
string produced by the code is "Could not decode image. Please try
another picture.", which is not the string "could not decode image". -/
theorem claim_C4_counterexample :
    (analyze_emotion_from_image (fun _ : List Nat => (none : Option Unit))
        (fun _ => DFOutcome.ok []) (some [0])).result =
      (none, EmoSecond.msg "Could not decode image. Please try another picture.") ∧
    EmoSecond.msg "Could not decode image. Please try another picture." ≠
      EmoSecond.msg "could not decode image" :=
  ⟨rfl, by decide⟩

/-- C6: the sentiment scorer returns exactly polarity 0 and
subjectivity 0 on the empty string, and more generally on every blank
(whitespace-only) input, whatever the underlying TextBlob capability
computes: the zero default is produced before the capability is
consulted. -/
theorem claim_C6_blank_sentiment_zero (blobSentiment : String → ℚ × ℚ) :
    analyze_sentiment blobSentiment "" = { polarity := 0, subjectivity := 0 } ∧
    ∀ text : String, text.data.all pyIsSpace = true →
      analyze_sentiment blobSentiment text = { polarity := 0, subjectivity := 0 } := by
  constructor
  · rfl
  · intro text h
    unfold analyze_sentiment
    rw [pyStrip_of_all_space h]
    simp

/-- Witness for C6: a capability that would return nonzero values is
never consulted on the empty and on a whitespace-only input. -/
theorem claim_C6_witness :
    analyze_sentiment (fun _ => (1, 1)) "" = { polarity := 0, subjectivity := 0 } ∧
    " \t".data.all pyIsSpace = true ∧
    analyze_sentiment (fun _ => (1, 1)) " \t" = { polarity := 0, subjectivity := 0 } :=
  ⟨(claim_C6_blank_sentiment_zero _).1, by decide,
    (claim_C6_blank_sentiment_zero _).2 " \t" (by decide)⟩

/-- C8 (amended): the deployment gate admits the application past the
warning screen exactly when the authorization environment variable is
present with a value whose Python uppercase form equals the literal
"TRUE" — a case-insensitive match, because the code uppercases the value
before the comparison — and refuses for absence and for every value
outside that case-insensitive family. -/
theorem claim_C8_gate_case_insensitive (env : Option String) :
    gateAdmits env = true ↔ ∃ s, env = some s ∧ pyUpper s = "TRUE" := by
  cases env with
  | none =>
    constructor
    · intro h
      exact absurd h (by decide)
    · rintro ⟨s, hs, _⟩
      exact Option.noConfusion hs
  | some s =>
    constructor
    · intro h
      refine ⟨s, rfl, ?_⟩
      simpa [gateAdmits, AUTHORIZED_DEPLOYMENT_FLAG] using h
    · rintro ⟨s2, hs2, hup⟩
      injection hs2 with he
      subst he
      simp [gateAdmits, AUTHORIZED_DEPLOYMENT_FLAG, hup]

/-- Counterexample to C8 as stated: there is no single exact literal
whose presence characterizes admission, because the gate uppercases the
value first: both "TRUE" and "true" are admitted, and they are distinct
strings. -/
theorem claim_C8_counterexample :
    ¬ ∃ lit : String, ∀ env : Option String,
        gateAdmits env = true ↔ env = some lit := by
  rintro ⟨lit, h⟩
  have h1 : (some "TRUE" : Option String) = some lit := (h (some "TRUE")).mp (by decide)
  have h2 : (some "true" : Option String) = some lit := (h (some "true")).mp (by decide)
  injection h1 with e1
  injection h2 with e2
  rw [← e1] at e2
  exact absurd e2 (by decide)

/-- C9: when no snapshot is supplied (the image argument is `None`),
`analyze_emotion_from_image` returns the not-detected pair with exactly
the reason "No image provided.", calls neither the image decoder nor the
emotion capability, and emits no error banner. -/
theorem claim_C9_no_image {Image : Type} (imdecode : List Nat → Option Image)
    (dfAnalyze : Image → DFOutcome) :
    analyze_emotion_from_image imdecode dfAnalyze none =
      { result := (none, .msg "No image provided."),
        decodeCalls := 0, analyzeCalls := 0, errors := [] } :=
  rfl

set_option maxRecDepth 8000 in
/-- C7: for every category in the fixed closed set and every answer
string, the Prompt Builder's output document embeds the category and the
answer verbatim and lists the seven required evaluation dimensions
(content and relevance, structure and clarity, conciseness, impact and
examples, strengths, areas for improvement, and an overall
score/rating). -/
theorem claim_C7_prompt_embeds_inputs (category answer : String)
    (hc : category ∈ categories) :
    ContainsSubstr (buildPrompt category answer) category ∧
    ContainsSubstr (buildPrompt category answer) answer ∧
    ContainsSubstr (buildPrompt category answer) "Content and Relevance" ∧
    ContainsSubstr (buildPrompt category answer) "Structure and Clarity" ∧
    ContainsSubstr (buildPrompt category answer) "Conciseness" ∧
    ContainsSubstr (buildPrompt category answer) "Impact and Examples" ∧
    ContainsSubstr (buildPrompt category answer) "Strengths" ∧
    ContainsSubstr (buildPrompt category answer) "Areas for Improvement" ∧
    ContainsSubstr (buildPrompt category answer) "Overall Score/Rating" := by
  refine ⟨?_, ?_, ?_, ?_, ?_, ?_, ?_, ?_, ?_⟩ <;> unfold buildPrompt
  · exact containsSubstr_appendR _ (containsSubstr_appendR _ (containsSubstr_appendR _
      (containsSubstr_appendR _ (containsSubstr_appendR _
        (containsSubstr_appendL _ (containsSubstr_refl category))))))
  · exact containsSubstr_appendR _ (containsSubstr_appendL _ (containsSubstr_refl answer))
  · exact containsSubstr_appendR _ (containsSubstr_appendR _ (containsSubstr_appendR _
      (containsSubstr_appendR _ (containsSubstr_appendL _ (strContains_sound (by decide))))))
  · exact containsSubstr_appendR _ (containsSubstr_appendR _ (containsSubstr_appendR _
      (containsSubstr_appendR _ (containsSubstr_appendL _ (strContains_sound (by decide))))))
  · exact containsSubstr_appendR _ (containsSubstr_appendR _ (containsSubstr_appendR _
      (containsSubstr_appendR _ (containsSubstr_appendL _ (strContains_sound (by decide))))))
  · exact containsSubstr_appendR _ (containsSubstr_appendR _ (containsSubstr_appendR _
      (containsSubstr_appendR _ (containsSubstr_appendL _ (strContains_sound (by decide))))))
  · exact containsSubstr_appendR _ (containsSubstr_appendR _ (containsSubstr_appendR _
      (containsSubstr_appendR _ (containsSubstr_appendL _ (strContains_sound (by decide))))))
  · exact containsSubstr_appendR _ (containsSubstr_appendR _ (containsSubstr_appendR _
      (containsSubstr_appendR _ (containsSubstr_appendL _ (strContains_sound (by decide))))))
  · exact containsSubstr_appendR _ (containsSubstr_appendR _ (containsSubstr_appendR _
      (containsSubstr_appendR _ (containsSubstr_appendL _ (strContains_sound (by decide))))))

/-- Witness for C7 at the Technical category and a concrete answer. -/
theorem claim_C7_witness :
    "Technical (Software Engineering)" ∈ categories ∧
    (ContainsSubstr (buildPrompt "Technical (Software Engineering)" "I optimized a query.")
        "Technical (Software Engineering)" ∧
      ContainsSubstr (buildPrompt "Technical (Software Engineering)" "I optimized a query.")
        "I optimized a query." ∧
      ContainsSubstr (buildPrompt "Technical (Software Engineering)" "I optimized a query.")
        "Content and Relevance" ∧
      ContainsSubstr (buildPrompt "Technical (Software Engineering)" "I optimized a query.")
        "Structure and Clarity" ∧
      ContainsSubstr (buildPrompt "Technical (Software Engineering)" "I optimized a query.")
        "Conciseness" ∧
      ContainsSubstr (buildPrompt "Technical (Software Engineering)" "I optimized a query.")
        "Impact and Examples" ∧
      ContainsSubstr (buildPrompt "Technical (Software Engineering)" "I optimized a query.")
        "Strengths" ∧
      ContainsSubstr (buildPrompt "Technical (Software Engineering)" "I optimized a query.")
        "Areas for Improvement" ∧
      ContainsSubstr (buildPrompt "Technical (Software Engineering)" "I optimized a query.")
        "Overall Score/Rating") :=
  ⟨by decide, claim_C7_prompt_embeds_inputs _ _ (by decide)⟩
